import Mathlib

/-
  Verification development for the session-index engine
  (transcript parser, change-detection/upsert pipeline, search-side
  context filtering and the topic-capture hook).

  The Python sources are shallowly embedded: each Python function that a
  claim touches is translated into an executable Lean definition on an
  explicit data model.  SQLite tables become lists of row structures, the
  per-session upsert transaction becomes an `Except`-threaded sequence of
  pure steps with explicit commit/rollback, files become structured
  transcript values carrying their raw line texts, and the two regular
  expression engines that receive *arbitrary* user input (`re.compile` on a
  search query and ISO timestamp parsing) are ambient parameters packed in
  a `Config`; every fixed regular expression in the sources is implemented
  concretely.
-/

namespace SessionIndex

/-! ## Python string primitives -/

/-- Python's `pat in s` substring test, on character lists. -/
def hasInfixChars (pat : List Char) : List Char → Bool
  | [] => pat.isEmpty
  | l@(_ :: t) => pat.isPrefixOf l || hasInfixChars pat t

/-- Python's `pat in s` substring test on strings. -/
def strContains (s pat : String) : Bool :=
  hasInfixChars pat.data s.data

/-- The whitespace set of Python's `str.strip()` / `str.split()`. -/
def pyIsSpace (c : Char) : Bool :=
  c == ' ' || c == '\t' || c == '\n' || c == '\x0d' ||
    c == Char.ofNat 11 || c == Char.ofNat 12

/-- Python `s.strip()`. -/
def pyStrip (s : String) : String :=
  ⟨((s.data.dropWhile pyIsSpace).reverse.dropWhile pyIsSpace).reverse⟩

/-- Python `s.strip(chars)` (strip any of the given characters from both ends). -/
def pyStripChars (bad : List Char) (s : String) : String :=
  ⟨((s.data.dropWhile (bad.contains ·)).reverse.dropWhile (bad.contains ·)).reverse⟩

/-- Python `s.lower()` (character-wise). -/
def pyLower (s : String) : String :=
  ⟨s.data.map Char.toLower⟩

/-- Python `s.startswith(pre)`. -/
def pyStartsWith (s pre : String) : Bool :=
  pre.data.isPrefixOf s.data

/-- Python slicing `s[:n]` (by characters). -/
def pyTake (s : String) (n : Nat) : String :=
  ⟨s.data.take n⟩

/-- Split on runs of separator characters, dropping empty pieces (the
scan behind Python's no-argument `s.split()`).  The fuel argument — always
instantiated with the input length, which bounds the number of steps —
makes the recursion structural. -/
def splitRunsFuel (p : Char → Bool) : Nat → List Char → List String
  | _, [] => []
  | 0, l => [⟨l⟩]
  | fuel + 1, c :: t =>
    if p c then splitRunsFuel p fuel t
    else
      let sp := t.span (fun x => !p x)
      ⟨c :: sp.1⟩ :: splitRunsFuel p fuel sp.2

/-- Python `s.split()` with no argument. -/
def pySplitWs (s : String) : List String :=
  splitRunsFuel pyIsSpace s.data.length s.data

/-- The scan behind Python `s.split(sep)` for a non-empty separator. -/
def splitOnFuel (pat : List Char) : Nat → List Char → List (List Char)
  | _, [] => [[]]
  | 0, l => [l]
  | fuel + 1, l@(c :: t) =>
    if pat.isPrefixOf l then
      [] :: splitOnFuel pat fuel (l.drop pat.length)
    else
      match splitOnFuel pat fuel t with
      | [] => [[c]]
      | s :: rest => (c :: s) :: rest

/-- Python `s.split(sep)` for a non-empty separator. -/
def pySplitOn (s sep : String) : List String :=
  (splitOnFuel sep.data s.data.length s.data).map (fun l => ⟨l⟩)

/-- The scan behind Python `s.replace(old, new)` for a non-empty `old`. -/
def replaceAllFuel (pat rep : List Char) : Nat → List Char → List Char
  | _, [] => []
  | 0, l => l
  | fuel + 1, l@(c :: t) =>
    if pat.isPrefixOf l then
      rep ++ replaceAllFuel pat rep fuel (l.drop pat.length)
    else c :: replaceAllFuel pat rep fuel t

/-- Python `s.replace(old, new)` for a non-empty `old`. -/
def pyReplace (s pat rep : String) : String :=
  ⟨replaceAllFuel pat.data rep.data s.data.length s.data⟩

/-- Python `sep.join(parts)`. -/
def pyJoin (sep : String) : List String → String
  | [] => ""
  | [x] => x
  | x :: xs => x ++ sep ++ pyJoin sep xs

/-- Python truthiness of an optional string (`None` and `''` are falsy). -/
def optFalsy (o : Option String) : Bool :=
  (o.getD "") == ""

/-! ## Transcript data model

A transcript is a line-delimited log.  Each physical line is either a line
that `json.loads` rejects (`Line.junk`, carrying its raw text) or a JSON
record (`Line.entry`).  `Entry` carries exactly the fields the sources read:
`type`, `timestamp`, `customTitle`, `summary`, `message.model` and
`message.content`; an absent string field is modeled as `""`, matching the
`entry.get(..., '')` defaults in the sources. -/

/-- One element of a structured `message.content` list. -/
structure ContentItem where
  itemType : String
  text : String
  name : String
  subagentType : String
  deriving Repr, DecidableEq

/-- A `message.content` value: either a plain string or a structured list. -/
inductive Content where
  | str (s : String)
  | items (l : List ContentItem)
  deriving Repr, DecidableEq

/-- One parsed JSON record of a transcript. -/
structure Entry where
  type : String
  timestamp : String
  customTitle : String
  summary : String
  msgModel : String
  content : Content
  deriving Repr, DecidableEq

/-- One physical line of a transcript file. -/
inductive Line where
  | entry (e : Entry)
  | junk (s : String)
  deriving Repr, DecidableEq

/-- `' '.join` of the `text` fields of the `type == "text"` items
(`_parse_session` and `extract_recent_user_messages` both extract message
text this way). -/
def contentText : Content → String
  | .str s => s
  | .items l => pyJoin " " ((l.filter (fun i => i.itemType == "text")).map (·.text))

/-- A transcript file on disk: its stem (the session id), parent project
directory, path, parsed line structure, and the stat data the fingerprint
uses.  `readFails` models `open`/`stat` raising (an unreadable file); the
JSON decoding of individual lines is part of `Line` itself. -/
structure TranscriptFile where
  name : String
  project : String
  path : String
  lines : List Line
  size : Nat
  mtime : Nat
  readFails : Bool
  deriving Repr, DecidableEq

/-- The `_file_hash` fingerprint: md5 over `"{size}:{mtime}"`.  The md5
digest is modeled by its preimage string (md5 is injective on these short
inputs for all practical purposes, and the sources only ever compare
fingerprints for equality). -/
def file_fingerprint (f : TranscriptFile) : String :=
  toString f.size ++ ":" ++ toString f.mtime

/-! ## Store schema (SQLite tables as lists of rows) -/

/-- A row of the `sessions` table. -/
structure SessionRow where
  session_id : String
  project : String
  project_name : String
  title : Option String
  title_display : Option String
  tags : Option String
  client : Option String
  file_path : String
  file_size : Nat
  exchange_count : Nat
  start_time : Option String
  end_time : Option String
  duration_minutes : Option Int
  model : Option String
  has_compaction : Nat
  indexed_at : String
  last_modified : String
  file_hash : String
  deriving Repr, DecidableEq

/-- A row of `session_tools`. -/
structure ToolRow where
  session_id : String
  tool_name : String
  use_count : Nat
  deriving Repr, DecidableEq

/-- A row of `session_agents`. -/
structure AgentRow where
  session_id : String
  agent_name : String
  invocation_count : Nat
  deriving Repr, DecidableEq

/-- A row of the `session_topics` table (`id` is the AUTOINCREMENT key). -/
structure TopicRow where
  id : Nat
  session_id : String
  topic : String
  captured_at : String
  exchange_number : Option Nat
  source : String
  deriving Repr, DecidableEq

/-- A row of the `session_content` FTS table. -/
structure ContentRow where
  session_id : String
  content : String
  deriving Repr, DecidableEq

/-- The whole database. -/
structure Store where
  sessions : List SessionRow
  tools : List ToolRow
  agents : List AgentRow
  content : List ContentRow
  topics : List TopicRow
  nextTopicId : Nat
  deriving Repr, DecidableEq

/-- The freshly created (empty) database. -/
def emptyStore : Store :=
  { sessions := [], tools := [], agents := [], content := [], topics := [],
    nextTopicId := 1 }

/-- `SELECT ... FROM sessions WHERE session_id=?`. -/
def lookupSession (s : Store) (sid : String) : Option SessionRow :=
  s.sessions.find? (fun r => r.session_id == sid)

/-- Number of `session_topics` rows with the given exact
(session, topic text, source) triple. -/
def countTriple (l : List TopicRow) (sid txt src : String) : Nat :=
  l.countP (fun r => r.session_id == sid && r.topic == txt && r.source == src)

/-! ## Parsed session data (the dict returned by `_parse_session`) -/

/-- A topic candidate derived from a parse (a compaction summary). -/
structure TopicCandidate where
  topic : String
  source : String
  captured_at : String
  exchange_number : Option Nat
  deriving Repr, DecidableEq

/-- The dict `_parse_session` returns. -/
structure SessionData where
  session_id : String
  project : String
  project_name : String
  title : Option String
  title_display : Option String
  tags : Option String
  client : Option String
  file_path : String
  file_size : Nat
  exchange_count : Nat
  start_time : Option String
  end_time : Option String
  duration_minutes : Option Int
  model : Option String
  has_compaction : Nat
  file_hash : String
  tools : List (String × Nat)
  agents : List (String × Nat)
  fts_content : String
  topics : List TopicCandidate
  deriving Repr, DecidableEq

/-! ## The upsert pipeline (`_upsert_session`) -/

/-- The `ON CONFLICT(session_id) DO UPDATE SET` clause of `_upsert_session`:
the listed fields are taken from the excluded (new) row — note that
`indexed_at=excluded.indexed_at` is among them — while `project`,
`project_name`, `file_path` and `start_time` are not listed and keep the
stored row's values. -/
def conflictUpdate (old : SessionRow) (d : SessionData) (now : String) : SessionRow :=
  { old with
    title := d.title, title_display := d.title_display, tags := d.tags,
    client := d.client, file_size := d.file_size,
    exchange_count := d.exchange_count, end_time := d.end_time,
    duration_minutes := d.duration_minutes, model := d.model,
    has_compaction := d.has_compaction, indexed_at := now,
    last_modified := now, file_hash := d.file_hash }

/-- The plain `INSERT` row of `_upsert_session` (no conflict): both
bookkeeping timestamps are the same `now`. -/
def newSessionRow (d : SessionData) (now : String) : SessionRow :=
  { session_id := d.session_id, project := d.project,
    project_name := d.project_name, title := d.title,
    title_display := d.title_display, tags := d.tags, client := d.client,
    file_path := d.file_path, file_size := d.file_size,
    exchange_count := d.exchange_count, start_time := d.start_time,
    end_time := d.end_time, duration_minutes := d.duration_minutes,
    model := d.model, has_compaction := d.has_compaction,
    indexed_at := now, last_modified := now, file_hash := d.file_hash }

/-- `INSERT ... ON CONFLICT(session_id) DO UPDATE` on the sessions table. -/
def upsertSessions (l : List SessionRow) (d : SessionData) (now : String) :
    List SessionRow :=
  if l.any (fun r => r.session_id == d.session_id) then
    l.map (fun r =>
      if r.session_id == d.session_id then conflictUpdate r d now else r)
  else l ++ [newSessionRow d now]

/-- Step 1 of the upsert: the session row. -/
def upsert_step_session (d : SessionData) (now : String) (s : Store) : Store :=
  { s with sessions := upsertSessions s.sessions d now }

/-- Step 2: `DELETE`-then-`INSERT` of this session's tool and agent rows. -/
def upsert_step_usage (d : SessionData) (s : Store) : Store :=
  { s with
    tools := s.tools.filter (fun r => r.session_id ≠ d.session_id) ++
      d.tools.map (fun p => ToolRow.mk d.session_id p.1 p.2),
    agents := s.agents.filter (fun r => r.session_id ≠ d.session_id) ++
      d.agents.map (fun p => AgentRow.mk d.session_id p.1 p.2) }

/-- Step 3: `DELETE`-then-`INSERT` of the FTS content document (the insert
is skipped when `fts_content` is falsy). -/
def upsert_step_content (d : SessionData) (s : Store) : Store :=
  { s with
    content := s.content.filter (fun r => r.session_id ≠ d.session_id) ++
      (if d.fts_content ≠ "" then
        [ContentRow.mk d.session_id d.fts_content] else []) }

/-- One topic-candidate insertion of step 4: `SELECT id ... WHERE
session_id=? AND topic=? AND source=?`, then `INSERT` only when no such row
exists. -/
def insertTopicIfNew (sid : String) (t : TopicCandidate) (s : Store) : Store :=
  if s.topics.any (fun r =>
      r.session_id == sid && r.topic == t.topic && r.source == t.source) then s
  else
    { s with
      topics := s.topics ++ [TopicRow.mk s.nextTopicId sid t.topic
        t.captured_at t.exchange_number t.source],
      nextTopicId := s.nextTopicId + 1 }

/-- Step 4: additive insertion of the parse's topic candidates. -/
def upsert_step_topics (d : SessionData) (s : Store) : Store :=
  d.topics.foldl (fun s t => insertTopicIfNew d.session_id t s) s

/-- The four upsert steps applied in order (the success path of
`_upsert_session`). -/
def upsert_apply (d : SessionData) (now : String) (s : Store) : Store :=
  upsert_step_topics d (upsert_step_content d
    (upsert_step_usage d (upsert_step_session d now s)))

/-- `_upsert_session` as one transaction.  `fail i = true` means the `i`-th
step raises (an environmental SQLite error).  The statements execute
against the connection's pending state; on success `conn.commit()`
publishes it, on any exception `conn.rollback()` discards the pending
state, so the committed store either receives all four steps or none, and
the function returns `false` (the session is reported as an error). -/
def upsert_session (fail : Nat → Bool) (d : SessionData) (now : String)
    (s : Store) : Store × Bool :=
  let pending : Except Unit Store := do
    let s1 ← if fail 0 then .error () else .ok (upsert_step_session d now s)
    let s2 ← if fail 1 then .error () else .ok (upsert_step_usage d s1)
    let s3 ← if fail 2 then .error () else .ok (upsert_step_content d s2)
    let s4 ← if fail 3 then .error () else .ok (upsert_step_topics d s3)
    pure s4
  match pending with
  | .ok s4 => (s4, true)
  | .error _ => (s, false)

/-- The all-statements-succeed oracle. -/
def noFail : Nat → Bool := fun _ => false

/-! ## Configuration

`clients` and `project_name_map` mirror the config module's values.  The two
library calls that parse *arbitrary* input strings are ambient parameters:
`parseTime` models `datetime.fromisoformat(ts.replace('Z', '+00:00'))` as
seconds (`none` = `ValueError`), and `parseSummaryJson` models the
`json.loads(summary_text)` call of `_parse_session` together with its
`parsed.get('title', '') or parsed.get('summary', '') or summary_text`
extraction chain (`none` = `JSONDecodeError`/`AttributeError`). -/

structure Config where
  clients : List String
  project_name_map : List (String × String)
  parseTime : String → Option Int
  parseSummaryJson : String → Option String

/-- `self.project_name_map.get(project_dir, project_dir)`. -/
def project_name_of (cfg : Config) (project : String) : String :=
  ((cfg.project_name_map.find? (fun p => p.1 == project)).map (·.2)).getD project

/-! ## The transcript parser (`_parse_session`) -/

/-- `tools[name] = tools.get(name, 0) + 1` on an insertion-ordered dict. -/
def bumpCount (k : String) : List (String × Nat) → List (String × Nat)
  | [] => [(k, 1)]
  | (a, n) :: t => if a == k then (a, n + 1) :: t else (a, n) :: bumpCount k t

/-- The `tool_use` items of an assistant message's structured content
(a plain-string content is not a list, so it yields none). -/
def toolItems : Content → List ContentItem
  | .str _ => []
  | .items l => l.filter (fun i => i.itemType == "tool_use")

/-- The running accumulators of `_parse_session`'s line loop. -/
structure ParseAcc where
  user_prompts : List String
  tools : List (String × Nat)
  agents : List (String × Nat)
  exchange_count : Nat
  start_time : Option String
  end_time : Option String
  model : Option String
  has_compaction : Bool
  title : Option String
  title_display : Option String
  tags_str : Option String
  summaries : List String

/-- The accumulators before the first line. -/
def initParseAcc : ParseAcc :=
  { user_prompts := [], tools := [], agents := [], exchange_count := 0,
    start_time := none, end_time := none, model := none,
    has_compaction := false, title := none, title_display := none,
    tags_str := none, summaries := [] }

/-- One iteration of `_parse_session`'s loop.  A `junk` line models a
`json.JSONDecodeError` (the line is skipped).  Each accumulator is written
as an independent function of the previous state and the entry, mirroring
the assignments of the loop body. -/
def parseStep (cfg : Config) (acc : ParseAcc) : Line → ParseAcc
  | .junk _ => acc
  | .entry e =>
    let content := contentText e.content
    let parts := pySplitOn e.customTitle "......"
    let name_part := pyStrip (pyReplace (parts.headD "") ">>>" "")
    let tag_part := pyStrip (pyStripChars ['[', ']', '<', '>']
      (pyStrip (parts.getLastD "")))
    let sumVal :=
      if pyStartsWith (pyStrip e.summary) "\x7b" then
        match cfg.parseSummaryJson e.summary with
        | some c => c
        | none => e.summary
      else e.summary
    { user_prompts := acc.user_prompts ++
        (if e.type == "user" && content ≠ "" && content.length > 10 then
          [content] else []),
      tools :=
        if e.type == "assistant" then
          (toolItems e.content).foldl (fun m i => bumpCount i.name m) acc.tools
        else acc.tools,
      agents :=
        if e.type == "assistant" then
          (toolItems e.content).foldl (fun m i =>
            if i.name == "Task" && i.subagentType ≠ "" then
              bumpCount i.subagentType m
            else m) acc.agents
        else acc.agents,
      exchange_count := acc.exchange_count +
        (if e.type == "user" || e.type == "assistant" then 1 else 0),
      start_time :=
        if e.timestamp ≠ "" && acc.start_time == none then some e.timestamp
        else acc.start_time,
      end_time := if e.timestamp ≠ "" then some e.timestamp else acc.end_time,
      model :=
        if e.type == "assistant" && (acc.model.getD "") == "" then
          some e.msgModel
        else acc.model,
      has_compaction := acc.has_compaction || e.type == "summary",
      title :=
        if e.type == "custom-title" && pyStartsWith e.customTitle ">>>" then
          some name_part
        else acc.title,
      title_display :=
        if e.type == "custom-title" then some e.customTitle
        else acc.title_display,
      tags_str :=
        if e.type == "custom-title" && pyStartsWith e.customTitle ">>>" &&
            parts.length > 1 && tag_part ≠ "" then
          some tag_part
        else acc.tags_str,
      summaries := acc.summaries ++
        (if e.type == "summary" && e.summary ≠ "" then [sumVal] else []) }

/-- `summaries[0][:80]` with the `'...'` rewrite when the summary is long. -/
def truncTitle80 (s : String) : String :=
  if s.length > 80 then pyTake s 77 ++ "..." else pyTake s 80

/-- `_SKIP_TITLE_PREFIXES`. -/
def skip_title_prefix_list : List String :=
  ["#", "You are", "Caveat:", "Explore the"]

/-- `prompt.strip().split('\n')[0].strip()`. -/
def firstLineOf (p : String) : String :=
  pyStrip ⟨(pyStrip p).data.takeWhile (fun c => c ≠ '\n')⟩

/-- The scan of `_pick_title_from_prompts` over the (already truncated)
candidate list. -/
def pickTitleGo : List String → Option String
  | [] => none
  | p :: t =>
    let fl := firstLineOf p
    if fl.length ≤ 10 then pickTitleGo t
    else if skip_title_prefix_list.any (fun q => pyStartsWith fl q) then
      pickTitleGo t
    else if fl.length > 80 then some (pyTake fl 77 ++ "...") else some fl

/-- `_pick_title_from_prompts` (only the first five prompts are scanned). -/
def pick_title_from_prompts (prompts : List String) : Option String :=
  pickTitleGo (prompts.take 5)

/-- The client-detection block of `_parse_session`. -/
def detect_client (cfg : Config) (project : String) (prompts : List String) :
    Option String :=
  if cfg.clients ≠ [] then
    let all_text := pyLower (pyJoin " " (prompts.take 10))
    match cfg.clients.find? (fun c => strContains all_text (pyLower c)) with
    | some c => some c
    | none =>
      cfg.clients.find? (fun c =>
        strContains (pyLower (project_name_of cfg project)) (pyLower c))
  else none

/-- The duration block: `int((end - start).total_seconds() / 60)` under a
`try` that yields `None` when either timestamp fails to parse.  `int()`
truncates toward zero, which is `Int.tdiv`. -/
def compute_duration (cfg : Config) : Option String → Option String → Option Int
  | some st, some et =>
    (match cfg.parseTime st, cfg.parseTime et with
      | some s, some e => some (Int.tdiv (e - s) 60)
      | _, _ => none)
  | _, _ => none

/-- `end_time or datetime.now().isoformat()` (Python `or` on a possibly
absent string). -/
def pyOr (o : Option String) (dflt : String) : String :=
  if optFalsy o then dflt else o.getD ""

/-- `_parse_session`: `none` models the `except` path (the file could not
be read); otherwise the loop runs over the lines and the derived fields are
assembled exactly as in the source. -/
def parse_session (cfg : Config) (now : String) (f : TranscriptFile) :
    Option SessionData :=
  if f.readFails then none else
  let acc := f.lines.foldl (parseStep cfg) initParseAcc
  let tdt : Option String × Option String :=
    if optFalsy acc.title_display then
      match acc.summaries with
      | s0 :: _ => (some (truncTitle80 s0), some (truncTitle80 s0))
      | [] =>
        if acc.user_prompts ≠ [] then
          let p := pick_title_from_prompts acc.user_prompts
          (p, if p.isSome then p else acc.title)
        else (acc.title_display, acc.title)
    else (acc.title_display, acc.title)
  let fts0 := pyJoin "\n" (acc.user_prompts.take 50)
  let fts := if fts0.length > 100000 then pyTake fts0 100000 else fts0
  some
    { session_id := f.name, project := f.project,
      project_name := project_name_of cfg f.project, title := tdt.2,
      title_display := tdt.1, tags := acc.tags_str,
      client := detect_client cfg f.project acc.user_prompts,
      file_path := f.path, file_size := f.size,
      exchange_count := acc.exchange_count, start_time := acc.start_time,
      end_time := acc.end_time,
      duration_minutes := compute_duration cfg acc.start_time acc.end_time,
      model := acc.model,
      has_compaction := if acc.has_compaction then 1 else 0,
      file_hash := file_fingerprint f, tools := acc.tools,
      agents := acc.agents, fts_content := fts,
      topics := acc.summaries.map (fun s => TopicCandidate.mk (pyTake s 120)
        "compaction_summary" (pyOr acc.end_time now) none) }

/-! ## Batch modes (`backfill_all`, `index_incremental`) -/

/-- The stats dict of `backfill_all`. -/
structure BackfillStats where
  total : Nat
  indexed : Nat
  skipped : Nat
  errors : Nat
  deriving Repr, DecidableEq

/-- The stats dict of `index_incremental`. -/
structure IncrementalStats where
  checked : Nat
  indexed : Nat
  unchanged : Nat
  errors : Nat
  deriving Repr, DecidableEq

/-- One file of the `backfill_all` loop: skip when an existing record's
fingerprint matches, otherwise parse and upsert.  `fail` is the per-session
per-step SQLite failure oracle threaded to `upsert_session`. -/
def step_backfill (cfg : Config) (now : String) (fail : String → Nat → Bool)
    (acc : Store × BackfillStats) (f : TranscriptFile) :
    Store × BackfillStats :=
  let store := acc.1
  let st := acc.2
  let process : Store × BackfillStats :=
    match parse_session cfg now f with
    | none => (store, { st with errors := st.errors + 1 })
    | some d =>
      match upsert_session (fail f.name) d now store with
      | (s2, true) => (s2, { st with indexed := st.indexed + 1 })
      | (s2, false) => (s2, { st with errors := st.errors + 1 })
  match lookupSession store f.name with
  | some row =>
    if row.file_hash == file_fingerprint f then
      (store, { st with skipped := st.skipped + 1 })
    else process
  | none => process

/-- `backfill_all` over the enumerated session files. -/
def backfill_all (cfg : Config) (now : String) (fail : String → Nat → Bool)
    (files : List TranscriptFile) (store : Store) : Store × BackfillStats :=
  files.foldl (step_backfill cfg now fail)
    (store, { total := files.length, indexed := 0, skipped := 0, errors := 0 })

/-- One file of the `index_incremental` loop (same walk, `checked` counted
for every file and the match classified `unchanged`). -/
def step_incremental (cfg : Config) (now : String)
    (fail : String → Nat → Bool) (acc : Store × IncrementalStats)
    (f : TranscriptFile) : Store × IncrementalStats :=
  let store := acc.1
  let st := { acc.2 with checked := acc.2.checked + 1 }
  let process : Store × IncrementalStats :=
    match parse_session cfg now f with
    | none => (store, { st with errors := st.errors + 1 })
    | some d =>
      match upsert_session (fail f.name) d now store with
      | (s2, true) => (s2, { st with indexed := st.indexed + 1 })
      | (s2, false) => (s2, { st with errors := st.errors + 1 })
  match lookupSession store f.name with
  | some row =>
    if row.file_hash == file_fingerprint f then
      (store, { st with unchanged := st.unchanged + 1 })
    else process
  | none => process

/-- `index_incremental`. -/
def index_incremental (cfg : Config) (now : String)
    (fail : String → Nat → Bool) (files : List TranscriptFile)
    (store : Store) : Store × IncrementalStats :=
  files.foldl (step_incremental cfg now fail)
    (store, { checked := 0, indexed := 0, unchanged := 0, errors := 0 })

/-! ## Raw line texts

`get_exchange_count` in the capture hook scans the *raw* lines of the
transcript for a literal substring, while every other reader parses them as
JSON.  To relate the two views, an `Entry` is rendered to its canonical
compact JSON line (the serialization the host writes); `junk` lines carry
their raw text unchanged. -/

/-- JSON string escaping of one character. -/
def jsonEscapeChar (c : Char) : List Char :=
  if c = '\\' then ['\\', '\\']
  else if c = '"' then ['\\', '"']
  else if c = '\n' then ['\\', 'n']
  else if c = '\t' then ['\\', 't']
  else if c = '\x0d' then ['\\', 'r']
  else [c]

/-- A JSON string literal for `s`. -/
def jsonStr (s : String) : String :=
  "\"" ++ ⟨s.data.foldr (fun c acc => jsonEscapeChar c ++ acc) []⟩ ++ "\""

/-- Rendering of one structured content item. -/
def renderItem (i : ContentItem) : String :=
  "\x7b" ++ jsonStr "type" ++ ":" ++ jsonStr i.itemType ++ "," ++
    jsonStr "text" ++ ":" ++ jsonStr i.text ++ "," ++
    jsonStr "name" ++ ":" ++ jsonStr i.name ++ "," ++
    jsonStr "input" ++ ":\x7b" ++ jsonStr "subagent_type" ++ ":" ++
    jsonStr i.subagentType ++ "\x7d\x7d"

/-- Rendering of a `message.content` value. -/
def renderContent : Content → String
  | .str s => jsonStr s
  | .items l => "[" ++ pyJoin "," (l.map renderItem) ++ "]"

/-- The canonical compact JSON line of an entry. -/
def renderEntry (e : Entry) : String :=
  "\x7b" ++ jsonStr "type" ++ ":" ++ jsonStr e.type ++
    (if e.timestamp ≠ "" then
      "," ++ jsonStr "timestamp" ++ ":" ++ jsonStr e.timestamp else "") ++
    (if e.type == "custom-title" then
      "," ++ jsonStr "customTitle" ++ ":" ++ jsonStr e.customTitle else "") ++
    (if e.type == "summary" then
      "," ++ jsonStr "summary" ++ ":" ++ jsonStr e.summary else "") ++
    (if e.type == "user" || e.type == "assistant" then
      "," ++ jsonStr "message" ++ ":\x7b" ++ jsonStr "model" ++ ":" ++
        jsonStr e.msgModel ++ "," ++ jsonStr "content" ++ ":" ++
        renderContent e.content ++ "\x7d"
    else "") ++ "\x7d"

/-- The raw text of a physical transcript line. -/
def rawText : Line → String
  | .entry e => renderEntry e
  | .junk s => s

/-- Lines whose parsed record is a user turn. -/
def isUserLine : Line → Bool
  | .entry e => e.type == "user"
  | .junk _ => false

/-- Lines `_parse_session` counts into `exchange_count`. -/
def isExchangeLine : Line → Bool
  | .entry e => e.type == "user" || e.type == "assistant"
  | .junk _ => false

/-- The number of parsed user-turn records of a transcript. -/
def userTurnCount (lines : List Line) : Nat :=
  lines.countP isUserLine

/-! ## The topic-capture hook (`topic_capture.py`) -/

/-- `TOPIC_INTERVAL`. -/
def TOPIC_INTERVAL : Nat := 10

/-- The raw-line predicate of the hook's `get_exchange_count` loop. -/
def hasUserTypeSub (l : String) : Bool :=
  strContains l "\"type\":\"user\"" || strContains l "\"type\": \"user\""

/-- The counting loop of `get_exchange_count` (`count += 1` per matching
line). -/
def countUserLinesLoop (lines : List String) : Nat :=
  lines.foldl (fun c l => if hasUserTypeSub l then c + 1 else c) 0

/-- `get_exchange_count`: 0 for a missing or unreadable file, otherwise the
raw-line count.  (Transcripts are assumed to fit the 200 KB window the hook
reads; all claims quantify over such files.) -/
def get_exchange_count : Option TranscriptFile → Nat
  | none => 0
  | some f => if f.readFails then 0 else countUserLinesLoop (f.lines.map rawText)

/-- The word list of the conversational-acknowledgement noise pattern. -/
def ackWords : List String :=
  ["yes", "no", "ok", "sure", "thanks", "thank you", "yep", "nope", "cool",
   "great", "good", "fine", "hmm", "ah", "oh"]

/-- `\w` (ASCII range; the transcripts' noise markers are ASCII). -/
def isWordChar (c : Char) : Bool :=
  c.isAlphanum || c == '_'

/-- The anchored pattern `^(yes|no|...)\b` under `re.IGNORECASE`, applied
with `search` (the `^` anchor makes this a prefix test, and `\b` demands a
non-word character or the end of the string after the matched word). -/
def matchesAck (s : String) : Bool :=
  ackWords.any (fun w =>
    pyStartsWith (pyLower s) w &&
      (s.length == w.length || !isWordChar (s.data.getD w.length ' ')))

/-- `SKIP_RE`: the fixed noise patterns, all anchored at the start (and
`^/$` matching exactly `/`, optionally with one trailing newline). -/
def skip_noise (s : String) : Bool :=
  matchesAck s ||
  (s == "/" || s == "/\n") ||
  pyStartsWith (pyLower s) "<system-reminder>" ||
  pyStartsWith (pyLower s) "<task-notification>" ||
  pyStartsWith (pyLower s) "this session has ended" ||
  pyStartsWith (pyLower s) "[request interrupted" ||
  pyStartsWith (pyLower s) "please curate the memories" ||
  pyStartsWith (pyLower s) "implement the following plan"

/-- The reverse scan of `extract_recent_user_messages`: skip undecodable
lines, keep substantive non-noise user turns, stop once `count` messages
are collected. -/
def extractRecentGo (count : Nat) (acc : List String) :
    List Line → List String
  | [] => acc
  | .junk _ :: rest => extractRecentGo count acc rest
  | .entry e :: rest =>
    if e.type == "user" then
      let content := contentText e.content
      if content ≠ "" && content.length ≥ 15 && !skip_noise content then
        let acc2 := acc ++ [content]
        if acc2.length ≥ count then acc2 else extractRecentGo count acc2 rest
      else extractRecentGo count acc rest
    else extractRecentGo count acc rest

/-- `extract_recent_user_messages` (chronological order; a read failure is
caught and yields the empty list). -/
def extract_recent_user_messages (f : TranscriptFile) (count : Nat) :
    List String :=
  if f.readFails then []
  else (extractRecentGo count [] f.lines.reverse).reverse

/-- Drop characters up to and including the first occurrence of `pat`
(`none` when `pat` does not occur) — the lazy `.*?` search up to a closing
tag. -/
def dropThroughPat (pat : List Char) : List Char → Option (List Char)
  | [] => if pat.isEmpty then some [] else none
  | l@(_ :: t) =>
    if pat.isPrefixOf l then some (l.drop pat.length)
    else dropThroughPat pat t

/-- `re.sub(open + '.*?' + close, '', msg)` for literal tags: repeatedly
delete the leftmost open tag through the first close tag after it.  The
fuel argument (always instantiated with the input length, which bounds the
number of steps) makes the recursion structural. -/
def removeSpansFuel (openT closeT : List Char) : Nat → List Char → List Char
  | 0, l => l
  | _ + 1, [] => []
  | fuel + 1, l@(c :: t) =>
    if openT.isPrefixOf l then
      match dropThroughPat closeT (l.drop openT.length) with
      | some rest => removeSpansFuel openT closeT fuel rest
      | none => l
    else c :: removeSpansFuel openT closeT fuel t

/-- One pass of `` re.sub(r'`[^`]+`', '', msg) ``. -/
def removeInlineCodeFuel : Nat → List Char → List Char
  | 0, l => l
  | _ + 1, [] => []
  | fuel + 1, c :: t =>
    if c = '`' then
      let sp := t.span (fun x => x ≠ '`')
      match sp.2 with
      | _ :: r =>
        if sp.1 ≠ [] then removeInlineCodeFuel fuel r
        else c :: removeInlineCodeFuel fuel t
      | [] => c :: removeInlineCodeFuel fuel t
    else c :: removeInlineCodeFuel fuel t

/-- `re.sub(r'\[([^\]]+)\]\([^)]+\)', r'\1', msg)`: markdown links are
replaced by their link text. -/
def removeLinksFuel : Nat → List Char → List Char
  | 0, l => l
  | _ + 1, [] => []
  | fuel + 1, c :: t =>
    if c = '[' then
      let sp := t.span (fun x => x ≠ ']')
      match sp.2 with
      | _ :: r2 =>
        if sp.1 ≠ [] then
          match r2 with
          | '(' :: r3 =>
            let sp2 := r3.span (fun x => x ≠ ')')
            match sp2.2 with
            | _ :: r4 =>
              if sp2.1 ≠ [] then sp.1 ++ removeLinksFuel fuel r4
              else c :: removeLinksFuel fuel t
            | [] => c :: removeLinksFuel fuel t
          | _ => c :: removeLinksFuel fuel t
        else c :: removeLinksFuel fuel t
      | [] => c :: removeLinksFuel fuel t
    else c :: removeLinksFuel fuel t

/-- The cleaning pipeline of `extract_topic`: strip system-reminder spans,
fenced and inline code, markdown links (keeping the text), the formatting
characters `#*_~`, then collapse whitespace and strip. -/
def cleanTopicMsg (msg : String) : String :=
  let m1 := removeSpansFuel "<system-reminder>".data "</system-reminder>".data
    msg.data.length msg.data
  let m2 := removeSpansFuel "```".data "```".data m1.length m1
  let m3 := removeInlineCodeFuel m2.length m2
  let m4 := removeLinksFuel m3.length m3
  let m5 := m4.filter (fun c => !(c = '#' || c = '*' || c = '_' || c = '~'))
  pyStrip (pyJoin " " (pySplitWs ⟨m5⟩))

/-- The first segment of `re.split(r'[.!?]\s+', msg)` (resp. the clause
split): characters up to the first punctuation character that is followed
by whitespace. -/
def firstSplitSeg (punct : List Char) : List Char → List Char
  | [] => []
  | c :: t =>
    if punct.contains c &&
        (match t with | x :: _ => pyIsSpace x | [] => false) then []
    else c :: firstSplitSeg punct t

/-- `topic[0].upper() + topic[1:]`. -/
def capFirst (s : String) : String :=
  match s.data with
  | [] => ""
  | c :: t => ⟨c.toUpper :: t⟩

/-- `extract_topic`: clean the most recent message; if the cleaned text is
too short, recurse on the list without its last element; otherwise take the
first sentence, fall back to the first clause when over 60 characters, hard
truncate to 57 + `...`, and capitalize.  Note the Python function can
return the *empty* string (falsy to its callers), which is modeled as
`some ""`. -/
def extractTopicGo : List String → Option String
  | [] => none
  | m :: rest =>
    let msg := cleanTopicMsg m
    if msg == "" || msg.length < 10 then
      (match rest with | [] => none | _ :: _ => extractTopicGo rest)
    else
      let topic1 := pyStrip ⟨firstSplitSeg ['.', '!', '?'] msg.data⟩
      let topic2 :=
        if topic1.length > 60 then
          pyStrip ⟨firstSplitSeg [',', ';', ':', '—', '–', '-'] topic1.data⟩
        else topic1
      let topic3 := if topic2.length > 60 then pyTake topic2 57 ++ "..."
        else topic2
      some (if topic3 ≠ "" then capFirst topic3 else topic3)

/-- `extract_topic` proper: `messages[-1]` is the head of the reversed
list, and the `messages[:-1]` recursion (taken only when at least two
messages remain) is the tail recursion of the scan above. -/
def extract_topic (messages : List String) : Option String :=
  extractTopicGo messages.reverse

/-! ## Hook state, side channel and handlers (pure success-path model) -/

/-- The persisted capture-state file, keyed by session id
(`{'last_capture_at': n}` per session). -/
abbrev CaptureState := List (String × Nat)

/-- The per-session side-channel topic files. -/
abbrev SideChannel := List (String × String)

/-- `state.get(session_id, {'last_capture_at': 0}).get('last_capture_at', 0)`. -/
def stateGet (st : CaptureState) (sid : String) : Nat :=
  ((st.find? (fun p => p.1 == sid)).map (·.2)).getD 0

/-- `state[session_id] = {'last_capture_at': n}`. -/
def stateSet (sid : String) (v : Nat) : CaptureState → CaptureState
  | [] => [(sid, v)]
  | (a, n) :: t => if a == sid then (a, v) :: t else (a, n) :: stateSet sid v t

/-- `state.pop(session_id, None)` (a dict holds at most one entry per key). -/
def stateRemove (sid : String) (st : CaptureState) : CaptureState :=
  st.filter (fun p => p.1 ≠ sid)

/-- `write_topic_file`: the per-session side-channel file is overwritten. -/
def sideSet (sid topic : String) : SideChannel → SideChannel
  | [] => [(sid, topic)]
  | (a, t) :: r =>
    if a == sid then (a, topic) :: r else (a, t) :: sideSet sid topic r

/-- `write_topic_db`: an unconditional `INSERT` into `session_topics`. -/
def write_topic_db (sid topic source : String) (exchange_number : Option Nat)
    (now : String) (s : Store) : Store :=
  { s with
    topics := s.topics ++
      [TopicRow.mk s.nextTopicId sid topic now exchange_number source],
    nextTopicId := s.nextTopicId + 1 }

/-- `find_session_file`: the first project directory holding
`{session_id}.jsonl`. -/
def find_session_file (files : List TranscriptFile) (sid : String) :
    Option TranscriptFile :=
  files.find? (fun f => f.name == sid)

/-- `trigger_full_index`: `index_session(file_path=...)` = parse + upsert
(all internal failures are caught by the hook; this is the success path,
the failure branches are modeled in the `_x` functions below). -/
def trigger_full_index (cfg : Config) (now : String) (f : TranscriptFile)
    (store : Store) : Store :=
  match parse_session cfg now f with
  | none => store
  | some d => (upsert_session noFail d now store).1

/-- The result of one hook invocation.  `captured` is instrumentation: the
exchange count at which the write path executed (`none` when the invocation
wrote nothing). -/
structure HookResult where
  state : CaptureState
  store : Store
  side : SideChannel
  captured : Option Nat
  deriving Repr, DecidableEq

/-- `handle_user_prompt_submit`, generalized over the capture interval
(the source fixes it to `TOPIC_INTERVAL = 10`).  The guards use integer
arithmetic as Python does. -/
def handle_user_prompt_submit_gen (interval : Nat) (sid : String)
    (files : List TranscriptFile) (state : CaptureState) (store : Store)
    (side : SideChannel) (now : String) : HookResult :=
  match find_session_file files sid with
  | none => ⟨state, store, side, none⟩
  | some f =>
    let exchange_count := get_exchange_count (some f)
    let last_capture := stateGet state sid
    if (exchange_count : Int) < (interval : Int) then ⟨state, store, side, none⟩
    else if (exchange_count : Int) - (last_capture : Int) < (interval : Int) then
      ⟨state, store, side, none⟩
    else
      let topic := extract_topic (extract_recent_user_messages f 3)
      if optFalsy topic then ⟨state, store, side, none⟩
      else
        ⟨stateSet sid exchange_count state,
         write_topic_db sid (topic.getD "") "hook_periodic"
           (some exchange_count) now store,
         sideSet sid (topic.getD "") side,
         some exchange_count⟩

/-- The source's handler at its configured interval. -/
def handle_user_prompt_submit (sid : String) (files : List TranscriptFile)
    (state : CaptureState) (store : Store) (side : SideChannel)
    (now : String) : HookResult :=
  handle_user_prompt_submit_gen TOPIC_INTERVAL sid files state store side now

/-- `handle_pre_compact`: unconditional capture from the last 5 substantive
user turns. -/
def handle_pre_compact (sid : String) (files : List TranscriptFile)
    (state : CaptureState) (store : Store) (side : SideChannel)
    (now : String) : HookResult :=
  match find_session_file files sid with
  | none => ⟨state, store, side, none⟩
  | some f =>
    let topic := extract_topic (extract_recent_user_messages f 5)
    if optFalsy topic then ⟨state, store, side, none⟩
    else
      let exchange_count := get_exchange_count (some f)
      ⟨state,
       write_topic_db sid (topic.getD "") "hook_precompact"
         (some exchange_count) now store,
       sideSet sid (topic.getD "") side,
       some exchange_count⟩

/-- `handle_session_end`: final capture, synchronous full re-index, then
removal of this session's cursor. -/
def handle_session_end (cfg : Config) (sid : String)
    (files : List TranscriptFile) (state : CaptureState) (store : Store)
    (side : SideChannel) (now : String) : HookResult :=
  match find_session_file files sid with
  | none => ⟨state, store, side, none⟩
  | some f =>
    let topic := extract_topic (extract_recent_user_messages f 5)
    let afterTopic : Store × SideChannel × Option Nat :=
      if optFalsy topic then (store, side, none)
      else
        let n := get_exchange_count (some f)
        (write_topic_db sid (topic.getD "") "hook_session_end" (some n) now store,
         sideSet sid (topic.getD "") side, some n)
    let store2 := trigger_full_index cfg now f afterTopic.1
    ⟨stateRemove sid state, store2, afterTopic.2.1, afterTopic.2.2⟩

/-- The turn-by-turn simulation for the periodic-capture claim: at turn
`t` the handler is invoked on the transcript `tr t`; `caps` records the
turn numbers at which a capture was written. -/
structure SimAcc where
  state : CaptureState
  store : Store
  side : SideChannel
  caps : List Nat
  deriving Repr, DecidableEq

/-- Run the prompt-submitted handler once per user turn, `n` turns. -/
def simulate_prompts (interval : Nat) (sid : String)
    (tr : Nat → TranscriptFile) (now : String) : Nat → SimAcc
  | 0 => ⟨[], emptyStore, [], []⟩
  | n + 1 =>
    let acc := simulate_prompts interval sid tr now n
    let r := handle_user_prompt_submit_gen interval sid [tr (n + 1)]
      acc.state acc.store acc.side now
    ⟨r.state, r.store, r.side,
     acc.caps ++ (r.captured.map (fun _ => n + 1)).toList⟩

/-! ## Failure-propagation model of the hook (`main` and its callees)

Each side-effecting primitive carries the try/except structure of the
source: `load_state`, the transcript reads, `write_topic_db` and
`trigger_full_index` swallow their own failures, while `write_topic_file`
and `save_state` contain no exception handling, and `main` wraps nothing —
an exception there propagates to the host. -/

/-- Which environment operations succeed during one hook invocation. -/
structure HookEnv where
  state_read_ok : Bool
  transcript_read_ok : Bool
  topic_file_write_ok : Bool
  db_write_ok : Bool
  save_state_ok : Bool
  reindex_ok : Bool
  deriving Repr, DecidableEq

/-- The uncaught exceptions a hook invocation can raise. -/
inductive HookErr where
  | topicFileWrite
  | saveState
  deriving Repr, DecidableEq

/-- The world visible to one hook invocation. -/
structure HookWorld where
  disk : CaptureState
  store : Store
  side : SideChannel
  deriving Repr, DecidableEq

/-- `load_state` (guarded: unreadable or corrupt state yields `{}`). -/
def load_state_x (env : HookEnv) (disk : CaptureState) : CaptureState :=
  if env.state_read_ok then disk else []

/-- `get_exchange_count` (guarded: a failed read yields 0). -/
def get_exchange_count_x (env : HookEnv) (f : TranscriptFile) : Nat :=
  if env.transcript_read_ok then get_exchange_count (some f) else 0

/-- `extract_recent_user_messages` (guarded: a failed read yields `[]`). -/
def extract_recent_x (env : HookEnv) (f : TranscriptFile) (count : Nat) :
    List String :=
  if env.transcript_read_ok then extract_recent_user_messages f count else []

/-- `write_topic_file` — no try/except: a failed write raises. -/
def write_topic_file_x (env : HookEnv) (sid topic : String)
    (side : SideChannel) : Except HookErr SideChannel :=
  if env.topic_file_write_ok then .ok (sideSet sid topic side)
  else .error .topicFileWrite

/-- `write_topic_db` (guarded: "DB might not exist yet — that's OK"). -/
def write_topic_db_x (env : HookEnv) (sid topic source : String)
    (n : Option Nat) (now : String) (store : Store) : Store :=
  if env.db_write_ok then write_topic_db sid topic source n now store
  else store

/-- `save_state` — no try/except: a failed write raises. -/
def save_state_x (env : HookEnv) (st : CaptureState) :
    Except HookErr CaptureState :=
  if env.save_state_ok then .ok st else .error .saveState

/-- `trigger_full_index` (guarded: both import and run failures are
swallowed). -/
def trigger_full_index_x (env : HookEnv) (cfg : Config) (now : String)
    (f : TranscriptFile) (store : Store) : Store :=
  if env.reindex_ok then trigger_full_index cfg now f store else store

/-- `handle_user_prompt_submit` with explicit failure propagation. -/
def handle_user_prompt_submit_x (env : HookEnv) (sid : String)
    (files : List TranscriptFile) (w : HookWorld) (now : String) :
    Except HookErr HookWorld :=
  match find_session_file files sid with
  | none => .ok w
  | some f =>
    let exchange_count := get_exchange_count_x env f
    let state := load_state_x env w.disk
    let last_capture := stateGet state sid
    if (exchange_count : Int) < (TOPIC_INTERVAL : Int) then .ok w
    else if (exchange_count : Int) - (last_capture : Int) <
        (TOPIC_INTERVAL : Int) then .ok w
    else
      let topic := extract_topic (extract_recent_x env f 3)
      if optFalsy topic then .ok w
      else do
        let side2 ← write_topic_file_x env sid (topic.getD "") w.side
        let store2 := write_topic_db_x env sid (topic.getD "") "hook_periodic"
          (some exchange_count) now w.store
        let disk2 ← save_state_x env (stateSet sid exchange_count state)
        .ok ⟨disk2, store2, side2⟩

/-- `handle_pre_compact` with explicit failure propagation. -/
def handle_pre_compact_x (env : HookEnv) (sid : String)
    (files : List TranscriptFile) (w : HookWorld) (now : String) :
    Except HookErr HookWorld :=
  match find_session_file files sid with
  | none => .ok w
  | some f =>
    let topic := extract_topic (extract_recent_x env f 5)
    if optFalsy topic then .ok w
    else do
      let exchange_count := get_exchange_count_x env f
      let side2 ← write_topic_file_x env sid (topic.getD "") w.side
      let store2 := write_topic_db_x env sid (topic.getD "") "hook_precompact"
        (some exchange_count) now w.store
      .ok ⟨w.disk, store2, side2⟩

/-- `handle_session_end` with explicit failure propagation. -/
def handle_session_end_x (env : HookEnv) (cfg : Config) (sid : String)
    (files : List TranscriptFile) (w : HookWorld) (now : String) :
    Except HookErr HookWorld :=
  match find_session_file files sid with
  | none => .ok w
  | some f => do
    let topic := extract_topic (extract_recent_x env f 5)
    let ws ←
      if optFalsy topic then Except.ok (w.store, w.side)
      else do
        let exchange_count := get_exchange_count_x env f
        let side2 ← write_topic_file_x env sid (topic.getD "") w.side
        let store2 := write_topic_db_x env sid (topic.getD "")
          "hook_session_end" (some exchange_count) now w.store
        Except.ok (store2, side2)
    let store3 := trigger_full_index_x env cfg now f ws.1
    let state := load_state_x env w.disk
    let disk2 ← save_state_x env (stateRemove sid state)
    .ok ⟨disk2, store3, ws.2⟩

/-- `main`: resolve the session id, dispatch on the event name; an unknown
session id or event name is a no-op.  There is no try/except here, so any
`HookErr` of a handler propagates to the host. -/
def hook_main_x (env : HookEnv) (cfg : Config) (sid event : String)
    (files : List TranscriptFile) (w : HookWorld) (now : String) :
    Except HookErr HookWorld :=
  if sid == "unknown" then .ok w
  else if event == "UserPromptSubmit" then
    handle_user_prompt_submit_x env sid files w now
  else if event == "PreCompact" then
    handle_pre_compact_x env sid files w now
  else if event == "SessionEnd" then
    handle_session_end_x env cfg sid files w now
  else .ok w

/-! ## Context-extraction query filtering (`extract_exchanges`) -/

/-- One reconstructed exchange pair. -/
structure Exchange where
  user : String
  assistant : String
  timestamp : String
  deriving Repr, DecidableEq

/-- The regex engine: `re.compile(query, re.IGNORECASE)` yields a matcher
(`pattern.search` as a Bool test over a string) or raises `re.error`
(`none`).  The query is arbitrary user input, so the engine is an ambient
parameter; the theorems quantify over it. -/
abbrev RegexEngine := String → Option (String → Bool)

/-- Python truthiness of the `matched` variable (`None` and `[]` falsy). -/
def pyFalsyList : Option (List Exchange) → Bool
  | none => true
  | some [] => true
  | some (_ :: _) => false

/-- The query-filtering block of `extract_exchanges` (the `matched`
dataflow of the source, ending in `matched or []`). -/
def queryFilter (rx : RegexEngine) (query : String)
    (exchanges : List Exchange) : List Exchange :=
  let matched0 : Option (List Exchange) :=
    match rx query with
    | some f => some (exchanges.filter (fun ex => f ex.user || f ex.assistant))
    | none => none
  let matched1 : Option (List Exchange) :=
    if pyFalsyList matched0 then
      some (exchanges.filter (fun ex =>
        strContains (pyLower ex.user) (pyLower query) ||
          strContains (pyLower ex.assistant) (pyLower query)))
    else matched0
  let matched2 : Option (List Exchange) :=
    if pyFalsyList matched1 then
      let words := ((pySplitWs query).filter (fun w => w.length > 2)).map
        pyLower
      if words ≠ [] then
        some (exchanges.filter (fun ex => words.any (fun w =>
          strContains (pyLower ex.user) w ||
            strContains (pyLower ex.assistant) w)))
      else matched1
    else matched1
  matched2.getD []

/-- Stage 1 of the spec's fallback chain: the case-insensitive regular
expression over both turns (`none` models a query that fails to compile). -/
def regexStage (rx : RegexEngine) (query : String)
    (exchanges : List Exchange) : Option (List Exchange) :=
  (rx query).map (fun f => exchanges.filter (fun ex => f ex.user || f ex.assistant))

/-- Stage 2: the case-insensitive substring match. -/
def substringStage (query : String) (exchanges : List Exchange) :
    List Exchange :=
  exchanges.filter (fun ex =>
    strContains (pyLower ex.user) (pyLower query) ||
      strContains (pyLower ex.assistant) (pyLower query))

/-- Stage 3: keep exchanges containing any query word longer than two
characters (no such word keeps nothing). -/
def wordStage (query : String) (exchanges : List Exchange) : List Exchange :=
  let words := ((pySplitWs query).filter (fun w => w.length > 2)).map
    pyLower
  exchanges.filter (fun ex => words.any (fun w =>
    strContains (pyLower ex.user) w || strContains (pyLower ex.assistant) w))

/-- The spec's description of the filtering: an ordered chain of three
matcher stages, each tried only when the previous produced zero matches,
with the empty list when every stage fails. -/
def specFallbackFilter (rx : RegexEngine) (query : String)
    (exchanges : List Exchange) : List Exchange :=
  match regexStage rx query exchanges with
  | some (l@(_ :: _)) => l
  | _ =>
    match substringStage query exchanges with
    | l@(_ :: _) => l
    | [] => wordStage query exchanges

/-! ## Concrete fixtures -/

/-- A configuration with no clients, no project-name map, and a timestamp
parser rejecting everything (the fixture transcripts carry no timestamps). -/
def cfg0 : Config :=
  ⟨[], [], fun _ => none, fun _ => none⟩

/-- The wall-clock instant of the fixture runs. -/
def now0 : String := "2025-09-01T12:00:00"

/-- A user-turn entry with plain string content. -/
def mkUserEntry (content : String) : Entry :=
  { type := "user", timestamp := "", customTitle := "", summary := "",
    msgModel := "", content := .str content }

/-- An assistant-turn entry with plain string content. -/
def mkAssistantEntry (content : String) : Entry :=
  { type := "assistant", timestamp := "", customTitle := "", summary := "",
    msgModel := "m-1", content := .str content }

/-- A previously indexed session row (first indexed in 2024). -/
def c1row : SessionRow :=
  { session_id := "s1", project := "projA", project_name := "Project A",
    title := some "Old", title_display := some "Old", tags := none,
    client := none, file_path := "/projA/s1.jsonl", file_size := 9,
    exchange_count := 2, start_time := some "2024-12-31T00:00:00",
    end_time := some "2024-12-31T01:00:00", duration_minutes := some 60,
    model := some "m-0", has_compaction := 0,
    indexed_at := "2024-01-01T00:00:00",
    last_modified := "2024-01-01T00:00:00", file_hash := "9:4" }

/-- A store holding just that session. -/
def c1store : Store :=
  { sessions := [c1row], tools := [], agents := [], content := [],
    topics := [], nextTopicId := 1 }

/-- A fresh parse of the same session (the file has grown). -/
def c1data : SessionData :=
  { session_id := "s1", project := "projA", project_name := "Project A",
    title := some "New", title_display := some "New", tags := none,
    client := none, file_path := "/projA/s1.jsonl", file_size := 10,
    exchange_count := 4, start_time := some "2024-12-31T00:00:00",
    end_time := some "2024-12-31T02:00:00", duration_minutes := some 120,
    model := some "m-1", has_compaction := 0, file_hash := "10:5",
    tools := [], agents := [], fts_content := "hello world text",
    topics := [] }

/-- A topic row previously written by the live capture hook. -/
def c2row : TopicRow :=
  ⟨1, "s2", "Refactor the indexer", "2025-01-01T00:00:00", some 10,
   "hook_periodic"⟩

/-- A store holding just that topic row. -/
def c2store : Store :=
  { sessions := [], tools := [], agents := [], content := [],
    topics := [c2row], nextTopicId := 2 }

/-- A valid transcript with 12 user turns. -/
def c3valid : TranscriptFile :=
  { name := "sess-valid", project := "projA",
    path := "/projA/sess-valid.jsonl",
    lines := (List.range 12).map (fun i => .entry (mkUserEntry
      ("turn " ++ toString i))),
    size := 640, mtime := 100, readFails := false }

/-- A readable file none of whose lines is JSON. -/
def c3corrupt : TranscriptFile :=
  { name := "sess-corrupt", project := "projA",
    path := "/projA/sess-corrupt.jsonl",
    lines := [.junk "this is not json", .junk "@@@@"],
    size := 21, mtime := 101, readFails := false }

/-- A transcript with one user turn and one assistant turn. -/
def c4file : TranscriptFile :=
  { name := "s4", project := "projA", path := "/projA/s4.jsonl",
    lines := [.entry (mkUserEntry "Fix the login page bug please"),
      .entry (mkAssistantEntry "done")],
    size := 50, mtime := 7, readFails := false }

/-- A 10-user-turn transcript that makes the periodic capture fire. -/
def c6file : TranscriptFile :=
  { name := "s6", project := "projA", path := "/projA/s6.jsonl",
    lines := (List.range 10).map (fun _ => .entry (mkUserEntry
      "Refactor the session indexer now")),
    size := 100, mtime := 3, readFails := false }

/-- All environment operations succeed except the side-channel topic-file
write (e.g. the topics directory is not writable). -/
def env6 : HookEnv :=
  ⟨true, true, false, true, true, true⟩

/-- A growing transcript family: after `t` user turns the file holds `t`
user-turn lines. -/
def c7tr : Nat → TranscriptFile := fun t =>
  { name := "s7", project := "projA", path := "/projA/s7.jsonl",
    lines := (List.range t).map (fun _ => .entry (mkUserEntry
      "Improve the search ranking")),
    size := t, mtime := 0, readFails := false }

/-- An already indexed, unchanged transcript. -/
def c8file : TranscriptFile :=
  { name := "s8", project := "projA", path := "/projA/s8.jsonl",
    lines := [], size := 5, mtime := 9, readFails := false }

/-- Its stored row, fingerprint matching the file. -/
def c8row : SessionRow :=
  { session_id := "s8", project := "projA", project_name := "Project A",
    title := none, title_display := none, tags := none, client := none,
    file_path := "/projA/s8.jsonl", file_size := 5, exchange_count := 0,
    start_time := none, end_time := none, duration_minutes := none,
    model := none, has_compaction := 0,
    indexed_at := "2025-01-01T00:00:00",
    last_modified := "2025-01-01T00:00:00", file_hash := "5:9" }

/-- A store holding just that row. -/
def c8store : Store :=
  { sessions := [c8row], tools := [], agents := [], content := [],
    topics := [], nextTopicId := 1 }

/-- An exchange sharing the word "login" with the query below. -/
def c9ex : Exchange :=
  ⟨"please fix the login page", "sure thing", ""⟩

/-- A regex engine on which every compile raises `re.error`. -/
def rxNone : RegexEngine := fun _ => none

/-- A user turn whose message body itself contains the literal
`"type":"user"`. -/
def c10bodyFile : TranscriptFile :=
  { name := "sA", project := "projA", path := "/projA/sA.jsonl",
    lines := [.entry (mkUserEntry "see \"type\":\"user\" here")],
    size := 1, mtime := 1, readFails := false }

/-- A transcript whose only line is non-JSON but quotes the marker. -/
def c10junkFile : TranscriptFile :=
  { name := "sB", project := "projA", path := "/projA/sB.jsonl",
    lines := [.junk "xx \"type\":\"user\" yy"],
    size := 1, mtime := 2, readFails := false }

/-- A well-formed two-turn transcript for the equality witness. -/
def c10wFile : TranscriptFile :=
  { name := "sW", project := "projA", path := "/projA/sW.jsonl",
    lines := [.entry (mkUserEntry "hello there friend"),
      .entry (mkAssistantEntry "hi")],
    size := 1, mtime := 3, readFails := false }

/-! ## Lookup lemmas for the upsert -/

theorem conflictUpdate_session_id (old : SessionRow) (d : SessionData)
    (now : String) : (conflictUpdate old d now).session_id = old.session_id :=
  rfl

theorem find?_upsertSessions (l : List SessionRow) (d : SessionData)
    (now : String) :
    (upsertSessions l d now).find? (fun r => r.session_id == d.session_id) =
      some ((l.find? (fun r => r.session_id == d.session_id)).elim
        (newSessionRow d now) (fun old => conflictUpdate old d now)) := by
  induction l with
  | nil =>
    simp [upsertSessions, newSessionRow, List.find?]
  | cons hd tl ih =>
    by_cases h : (hd.session_id == d.session_id) = true
    · simp only [upsertSessions, List.any_cons, h, Bool.true_or, if_true,
        List.map_cons, List.find?]
      have hc : ((conflictUpdate hd d now).session_id == d.session_id) = true := by
        rw [conflictUpdate_session_id]; exact h
      simp [h, hc]
    · have h' : (hd.session_id == d.session_id) = false := by
        simpa using h
      have key : (upsertSessions (hd :: tl) d now).find?
            (fun r => r.session_id == d.session_id) =
          (upsertSessions tl d now).find?
            (fun r => r.session_id == d.session_id) := by
        have hne : ¬ hd.session_id = d.session_id := by simpa using h
        by_cases ht : (tl.any (fun r => r.session_id == d.session_id)) = true
        · simp [upsertSessions, h', ht, hne, List.find?]
        · have ht' : (tl.any (fun r => r.session_id == d.session_id)) = false := by
            simpa using ht
          simp [upsertSessions, h', ht', hne, List.find?]
      rw [key, ih]
      simp [List.find?, h']

theorem upsert_apply_sessions (d : SessionData) (now : String) (s : Store) :
    (upsert_apply d now s).sessions = upsertSessions s.sessions d now := by
  simp only [upsert_apply, upsert_step_topics]
  have h : ∀ (ts : List TopicCandidate) (st : Store),
      (ts.foldl (fun s t => insertTopicIfNew d.session_id t s) st).sessions =
        st.sessions := by
    intro ts
    induction ts with
    | nil => intro st; rfl
    | cons t ts ih =>
      intro st
      rw [List.foldl_cons, ih]
      simp only [insertTopicIfNew]
      split <;> rfl
  rw [h]
  rfl

theorem lookupSession_upsert_apply (d : SessionData) (now : String) (s : Store) :
    lookupSession (upsert_apply d now s) d.session_id =
      some ((lookupSession s d.session_id).elim (newSessionRow d now)
        (fun old => conflictUpdate old d now)) := by
  unfold lookupSession
  rw [upsert_apply_sessions]
  exact find?_upsertSessions s.sessions d now

theorem upsert_session_eval (fail : Nat → Bool) (d : SessionData)
    (now : String) (s : Store) :
    upsert_session fail d now s =
      if fail 0 || fail 1 || fail 2 || fail 3 then (s, false)
      else (upsert_apply d now s, true) := by
  unfold upsert_session upsert_apply
  cases h0 : fail 0 <;> cases h1 : fail 1 <;> cases h2 : fail 2 <;>
    cases h3 : fail 3 <;> simp [h0, h1, h2, h3, Except.pure] <;> rfl

/-- C5: the per-session upsert is atomic — when no statement raises, all
four steps (session row, tool/agent rows, content document, topic
candidates) are committed together as `upsert_apply`; when any step raises,
the committed store is exactly the pre-upsert store and the upsert returns
failure, which the batch loops count as an indexing error. -/
theorem c5_upsert_atomic (fail : Nat → Bool) (d : SessionData)
    (now : String) (s : Store) :
    ((∀ i, i < 4 → fail i = false) →
      upsert_session fail d now s = (upsert_apply d now s, true)) ∧
    ((∃ i, i < 4 ∧ fail i = true) →
      upsert_session fail d now s = (s, false)) := by
  rw [upsert_session_eval]
  constructor
  · intro h
    have h0 := h 0 (by omega)
    have h1 := h 1 (by omega)
    have h2 := h 2 (by omega)
    have h3 := h 3 (by omega)
    simp [h0, h1, h2, h3]
  · rintro ⟨i, hi, hfail⟩
    have hor : (fail 0 || fail 1 || fail 2 || fail 3) = true := by
      interval_cases i <;> simp [hfail]
    simp [hor]

/-- Witness for C5 at a concrete parse and store: the all-success run
commits all four steps, a failing first statement leaves the store
untouched and reports failure. -/
theorem c5_upsert_atomic_witness :
    upsert_session (fun _ => false) c1data now0 emptyStore =
      (upsert_apply c1data now0 emptyStore, true) ∧
    upsert_session (fun _ => true) c1data now0 emptyStore =
      (emptyStore, false) := by
  constructor
  · exact (c5_upsert_atomic (fun _ => false) c1data now0 emptyStore).1
      (fun i _ => rfl)
  · exact (c5_upsert_atomic (fun _ => true) c1data now0 emptyStore).2
      ⟨0, by omega, rfl⟩

/-- C8: a transcript whose stored fingerprint (size + mtime) matches the
file is skipped by both batch modes — the store is returned unmodified
(no row of any table changes) and the file is classified skipped
(backfill) resp. unchanged (incremental), without re-parsing or
re-upserting. -/
theorem c8_unchanged_skipped (cfg : Config) (now : String)
    (fail : String → Nat → Bool) (store : Store) (stB : BackfillStats)
    (stI : IncrementalStats) (f : TranscriptFile) (row : SessionRow)
    (h : lookupSession store f.name = some row)
    (hh : row.file_hash = file_fingerprint f) :
    step_backfill cfg now fail (store, stB) f =
      (store, { stB with skipped := stB.skipped + 1 }) ∧
    step_incremental cfg now fail (store, stI) f =
      (store, { stI with checked := stI.checked + 1, unchanged := stI.unchanged + 1 }) := by
  constructor
  · simp [step_backfill, h, hh]
  · simp [step_incremental, h, hh]

/-- Witness for C8: a concrete store and unchanged file. -/
theorem c8_unchanged_skipped_witness :
    step_backfill cfg0 now0 (fun _ _ => false) (c8store, ⟨1, 0, 0, 0⟩) c8file =
      (c8store, ⟨1, 0, 1, 0⟩) ∧
    step_incremental cfg0 now0 (fun _ _ => false) (c8store, ⟨0, 0, 0, 0⟩)
        c8file = (c8store, ⟨1, 0, 1, 0⟩) := by
  have h := c8_unchanged_skipped cfg0 now0 (fun _ _ => false) c8store
    ⟨1, 0, 0, 0⟩ ⟨0, 0, 0, 0⟩ c8file c8row rfl (by decide)
  refine ⟨h.1, ?_⟩
  simpa using h.2

/-- C1 (corrected): re-running the upsert on an already present session
overwrites the derived fields and *also* the `indexed_at` timestamp (the
`ON CONFLICT` clause sets `indexed_at=excluded.indexed_at`); the fields
actually preserved are `project`, `project_name`, `file_path` and
`start_time`. -/
theorem c1_upsert_overwrite_fields (d : SessionData) (now : String)
    (s : Store) (old : SessionRow)
    (h : lookupSession s d.session_id = some old) :
    lookupSession (upsert_apply d now s) d.session_id =
      some (conflictUpdate old d now) ∧
    (conflictUpdate old d now).title = d.title ∧
    (conflictUpdate old d now).title_display = d.title_display ∧
    (conflictUpdate old d now).tags = d.tags ∧
    (conflictUpdate old d now).client = d.client ∧
    (conflictUpdate old d now).file_size = d.file_size ∧
    (conflictUpdate old d now).exchange_count = d.exchange_count ∧
    (conflictUpdate old d now).end_time = d.end_time ∧
    (conflictUpdate old d now).duration_minutes = d.duration_minutes ∧
    (conflictUpdate old d now).model = d.model ∧
    (conflictUpdate old d now).has_compaction = d.has_compaction ∧
    (conflictUpdate old d now).file_hash = d.file_hash ∧
    (conflictUpdate old d now).last_modified = now ∧
    (conflictUpdate old d now).indexed_at = now ∧
    (conflictUpdate old d now).project = old.project ∧
    (conflictUpdate old d now).project_name = old.project_name ∧
    (conflictUpdate old d now).file_path = old.file_path ∧
    (conflictUpdate old d now).start_time = old.start_time := by
  refine ⟨?_, rfl, rfl, rfl, rfl, rfl, rfl, rfl, rfl, rfl, rfl, rfl, rfl,
    rfl, rfl, rfl, rfl, rfl⟩
  rw [lookupSession_upsert_apply, h]
  rfl

/-- Counterexample to C1 as stated: a session first indexed in 2024 has its
`indexed_at` replaced by the re-upsert time. -/
theorem c1_indexed_at_overwritten :
    (lookupSession c1store "s1").map (fun r => r.indexed_at) =
      some "2024-01-01T00:00:00" ∧
    (lookupSession (upsert_apply c1data "2025-06-01T12:00:00" c1store)
        "s1").map (fun r => r.indexed_at) = some "2025-06-01T12:00:00" ∧
    ("2025-06-01T12:00:00" : String) ≠ "2024-01-01T00:00:00" := by
  exact ⟨rfl, rfl, by decide⟩

/-- Witness for C1 (amended) at a concrete store. -/
theorem c1_upsert_overwrite_fields_witness :
    lookupSession (upsert_apply c1data now0 c1store) "s1" =
      some (conflictUpdate c1row c1data now0) := by
  exact (c1_upsert_overwrite_fields c1data now0 c1store c1row rfl).1

theorem countTriple_pos_iff_any (l : List TopicRow) (sid txt src : String) :
    (l.any (fun r => r.session_id == sid && r.topic == txt &&
      r.source == src)) = true ↔ 0 < countTriple l sid txt src := by
  rw [countTriple, List.countP_pos_iff, List.any_eq_true]

theorem countTriple_insertTopicIfNew (dsid : String) (t : TopicCandidate)
    (s : Store) (sid txt src : String) :
    countTriple (insertTopicIfNew dsid t s).topics sid txt src =
      (if sid = dsid ∧ t.topic = txt ∧ t.source = src ∧
          countTriple s.topics sid txt src = 0 then 1
      else countTriple s.topics sid txt src) := by
  unfold insertTopicIfNew
  by_cases hex : (s.topics.any (fun r => r.session_id == dsid &&
      r.topic == t.topic && r.source == t.source)) = true
  · rw [if_pos hex]
    have hpos : 0 < countTriple s.topics dsid t.topic t.source :=
      (countTriple_pos_iff_any s.topics dsid t.topic t.source).mp hex
    rw [if_neg]
    rintro ⟨h1, h2, h3, h4⟩
    subst h1; subst h2; subst h3
    omega
  · rw [if_neg hex]
    have hzero : countTriple s.topics dsid t.topic t.source = 0 := by
      by_contra hne
      exact hex ((countTriple_pos_iff_any s.topics dsid t.topic
        t.source).mpr (Nat.pos_of_ne_zero hne))
    rw [countTriple] at hzero
    show countTriple (s.topics ++ [TopicRow.mk s.nextTopicId dsid t.topic
      t.captured_at t.exchange_number t.source]) sid txt src = _
    by_cases hb1 : dsid = sid
    · by_cases hb2 : t.topic = txt
      · by_cases hb3 : t.source = src
        · subst hb1; subst hb2; subst hb3
          simp [countTriple, List.countP_append, List.countP_cons, hzero]
        · simp [countTriple, List.countP_append, List.countP_cons, hb3]
      · simp [countTriple, List.countP_append, List.countP_cons, hb2]
    · have hb1s : ¬ sid = dsid := fun hh => hb1 hh.symm
      simp [countTriple, List.countP_append, List.countP_cons, hb1, hb1s]

theorem countTriple_upsert_fold (dsid : String) (ts : List TopicCandidate)
    (s : Store) (sid txt src : String) :
    countTriple ((ts.foldl (fun s t => insertTopicIfNew dsid t s) s)).topics
        sid txt src =
      (if sid = dsid ∧
          (ts.any (fun t => t.topic == txt && t.source == src)) = true ∧
          countTriple s.topics sid txt src = 0 then 1
      else countTriple s.topics sid txt src) := by
  induction ts generalizing s with
  | nil => simp
  | cons t ts ih =>
    rw [List.foldl_cons, ih, countTriple_insertTopicIfNew]
    by_cases h1 : sid = dsid
    · subst h1
      by_cases h2 : t.topic = txt
      · by_cases h3 : t.source = src
        · subst h2; subst h3
          by_cases h4 : countTriple s.topics sid t.topic t.source = 0
          · simp [h4]
          · simp [h4]
        · by_cases h4 : countTriple s.topics sid txt src = 0 <;>
            simp [h2, h3, h4]
      · by_cases h4 : countTriple s.topics sid txt src = 0 <;>
          simp [h2, h4]
    · simp [h1]

theorem topics_sublist_insertTopicIfNew (sid : String) (t : TopicCandidate)
    (s : Store) : s.topics.Sublist (insertTopicIfNew sid t s).topics := by
  unfold insertTopicIfNew
  split
  · exact List.Sublist.refl _
  · exact List.sublist_append_left _ _

theorem topics_sublist_fold (sid : String) (ts : List TopicCandidate) :
    ∀ s : Store,
      s.topics.Sublist ((ts.foldl (fun s t => insertTopicIfNew sid t s) s)).topics := by
  induction ts with
  | nil => intro s; exact List.Sublist.refl _
  | cons t ts ih =>
    intro s
    rw [List.foldl_cons]
    exact (topics_sublist_insertTopicIfNew sid t s).trans (ih _)

/-- C2 (corrected): topic rows are additive under the *indexer's* upsert —
re-indexing never deletes a topic row, and a candidate whose exact
(session, text, source) triple already exists is suppressed (a fresh triple
yields exactly one row even if repeated among the candidates).  The capture
hook's own write path (`write_topic_db`), however, inserts unconditionally:
re-inserting an existing triple adds another row. -/
theorem c2_topics_additive_dedup (d : SessionData) (now : String) (s : Store) :
    s.topics.Sublist (upsert_apply d now s).topics ∧
    (∀ sid txt src : String,
      countTriple (upsert_apply d now s).topics sid txt src =
        (if sid = d.session_id ∧
            (d.topics.any (fun t => t.topic == txt && t.source == src)) = true ∧
            countTriple s.topics sid txt src = 0 then 1
        else countTriple s.topics sid txt src)) ∧
    (∀ (sid txt src : String) (n : Option Nat) (cap : String) (st : Store),
      countTriple (write_topic_db sid txt src n cap st).topics sid txt src =
        countTriple st.topics sid txt src + 1) := by
  refine ⟨?_, ?_, ?_⟩
  · have h := topics_sublist_fold d.session_id d.topics
      (upsert_step_content d (upsert_step_usage d (upsert_step_session d now s)))
    simpa [upsert_apply, upsert_step_topics] using h
  · intro sid txt src
    have h := countTriple_upsert_fold d.session_id d.topics
      (upsert_step_content d (upsert_step_usage d (upsert_step_session d now s)))
      sid txt src
    simpa [upsert_apply, upsert_step_topics] using h
  · intro sid txt src n cap st
    simp [write_topic_db, countTriple, List.countP_append, List.countP_cons]

/-- Counterexample to C2 as stated: re-inserting an existing
(session, text, source) triple through the capture hook's write path leaves
two rows for that triple, not one. -/
theorem c2_hook_insert_duplicates :
    countTriple c2store.topics "s2" "Refactor the indexer" "hook_periodic" = 1 ∧
    countTriple (write_topic_db "s2" "Refactor the indexer" "hook_periodic"
        (some 20) now0 c2store).topics "s2" "Refactor the indexer"
        "hook_periodic" = 2 := by
  exact ⟨rfl, rfl⟩

theorem find?_map_conflict (l : List SessionRow) (d : SessionData)
    (now : String) (sid : String) (hne : sid ≠ d.session_id) :
    (l.map (fun r => if r.session_id == d.session_id then
        conflictUpdate r d now else r)).find?
      (fun r => r.session_id == sid) =
      l.find? (fun r => r.session_id == sid) := by
  induction l with
  | nil => rfl
  | cons hd tl ih =>
    by_cases h : (hd.session_id == d.session_id) = true
    · have hds : hd.session_id = d.session_id := by simpa using h
      have hp : (hd.session_id == sid) = false := by
        rw [hds]
        exact beq_eq_false_iff_ne.mpr (Ne.symm hne)
      have hm : ((if (hd.session_id == d.session_id) = true then
          conflictUpdate hd d now else hd).session_id == sid) = false := by
        rw [if_pos h, conflictUpdate_session_id]
        exact hp
      simp only [List.map_cons, List.find?, hm, hp]
      exact ih
    · have h' : (hd.session_id == d.session_id) = false := by simpa using h
      have hm : (if (hd.session_id == d.session_id) = true then
          conflictUpdate hd d now else hd) = hd := by simp [h']
      simp only [List.map_cons, hm]
      cases hp : (hd.session_id == sid)
      · simp only [List.find?, hp]
        exact ih
      · simp only [List.find?, hp]

theorem find?_upsertSessions_ne (l : List SessionRow) (d : SessionData)
    (now : String) (sid : String) (hne : sid ≠ d.session_id) :
    (upsertSessions l d now).find? (fun r => r.session_id == sid) =
      l.find? (fun r => r.session_id == sid) := by
  unfold upsertSessions
  by_cases hany : (l.any (fun r => r.session_id == d.session_id)) = true
  · rw [if_pos hany]
    exact find?_map_conflict l d now sid hne
  · rw [if_neg hany]
    have hnew : ((newSessionRow d now).session_id == sid) = false :=
      beq_eq_false_iff_ne.mpr (Ne.symm hne)
    simp [List.find?_append, List.find?, hnew, Option.or_none]

theorem lookupSession_upsert_apply_ne (d : SessionData) (now : String)
    (s : Store) (sid : String) (hne : sid ≠ d.session_id) :
    lookupSession (upsert_apply d now s) sid = lookupSession s sid := by
  unfold lookupSession
  rw [upsert_apply_sessions]
  exact find?_upsertSessions_ne s.sessions d now sid hne

theorem parseStep_exchange_count (cfg : Config) (acc : ParseAcc) (l : Line) :
    (parseStep cfg acc l).exchange_count =
      acc.exchange_count + (if isExchangeLine l then 1 else 0) := by
  cases l with
  | junk s => simp [parseStep, isExchangeLine]
  | entry e => simp [parseStep, isExchangeLine]

theorem parse_fold_exchange_count (cfg : Config) (lines : List Line)
    (acc : ParseAcc) :
    (lines.foldl (parseStep cfg) acc).exchange_count =
      acc.exchange_count + lines.countP isExchangeLine := by
  induction lines generalizing acc with
  | nil => simp
  | cons hd tl ih =>
    rw [List.foldl_cons, ih, parseStep_exchange_count, List.countP_cons]
    by_cases h : isExchangeLine hd <;> simp [h] <;> omega

theorem parse_session_fields (cfg : Config) (now : String)
    (f : TranscriptFile) (hread : f.readFails = false) :
    ∃ d, parse_session cfg now f = some d ∧ d.session_id = f.name ∧
      d.exchange_count = f.lines.countP isExchangeLine := by
  unfold parse_session
  rw [hread]
  simp only [Bool.false_eq_true, if_false]
  refine ⟨_, rfl, rfl, ?_⟩
  show (f.lines.foldl (parseStep cfg) initParseAcc).exchange_count = _
  have h := parse_fold_exchange_count cfg f.lines initParseAcc
  simpa [initParseAcc] using h

theorem trigger_full_index_lookup (cfg : Config) (now : String)
    (f : TranscriptFile) (store : Store) (hread : f.readFails = false) :
    ∃ row, lookupSession (trigger_full_index cfg now f store) f.name =
        some row ∧
      row.exchange_count = f.lines.countP isExchangeLine := by
  obtain ⟨d, hd, hdsid, hdcount⟩ := parse_session_fields cfg now f hread
  have htr : trigger_full_index cfg now f store = upsert_apply d now store := by
    simp [trigger_full_index, hd, upsert_session_eval, noFail]
  rw [htr, ← hdsid, lookupSession_upsert_apply]
  refine ⟨_, rfl, ?_⟩
  cases lookupSession store d.session_id with
  | none => simpa [newSessionRow] using hdcount
  | some old => simpa [conflictUpdate] using hdcount

theorem stateRemove_find?_none (sid : String) (st : CaptureState) :
    (stateRemove sid st).find? (fun p => p.1 == sid) = none := by
  induction st with
  | nil => rfl
  | cons hd tl ih =>
    by_cases h : hd.1 = sid
    · simpa [stateRemove, List.filter, h] using ih
    · simpa [stateRemove, List.filter, h, List.find?] using ih

/-- C4 (corrected): the session-end event does remove the session's
capture cursor, but the stored `exchange_count` is the number of user
*plus* assistant records (`_parse_session` increments it for both), not
the transcript's user-turn count. -/
theorem c4_session_end_amended (cfg : Config) (sid : String)
    (files : List TranscriptFile) (state : CaptureState) (store : Store)
    (side : SideChannel) (now : String) (f : TranscriptFile)
    (hfind : find_session_file files sid = some f)
    (hread : f.readFails = false) :
    ((handle_session_end cfg sid files state store side now).state.find?
      (fun p => p.1 == sid) = none) ∧
    (∃ row, lookupSession
        (handle_session_end cfg sid files state store side now).store sid =
        some row ∧
      row.exchange_count = f.lines.countP isExchangeLine) := by
  have hname : f.name = sid := by
    have h := List.find?_some hfind
    simpa using h
  have hstate : (handle_session_end cfg sid files state store side now).state =
      stateRemove sid state := by
    unfold handle_session_end
    rw [hfind]
  have hstore : ∃ st1, (handle_session_end cfg sid files state store side
      now).store = trigger_full_index cfg now f st1 := by
    unfold handle_session_end
    rw [hfind]
    by_cases htop : optFalsy (extract_topic
        (extract_recent_user_messages f 5)) = true
    · exact ⟨store, by simp [htop]⟩
    · have htop' : optFalsy (extract_topic
          (extract_recent_user_messages f 5)) = false := by
        simpa using htop
      exact ⟨write_topic_db sid
        ((extract_topic (extract_recent_user_messages f 5)).getD "")
        "hook_session_end" (some (get_exchange_count (some f))) now store,
        by simp [htop']⟩
  constructor
  · rw [hstate]
    exact stateRemove_find?_none sid state
  · obtain ⟨st1, hst1⟩ := hstore
    rw [hst1, ← hname]
    exact trigger_full_index_lookup cfg now f st1 hread

/-- Counterexample to C4 as stated: a transcript with one user turn and
one assistant turn ends with a stored `exchange_count` of 2, while its
user-turn count is 1. -/
theorem c4_exchange_count_counterexample :
    userTurnCount c4file.lines = 1 ∧
    (lookupSession (handle_session_end cfg0 "s4" [c4file] [("s4", 5)]
        emptyStore [] now0).store "s4").map (fun r => r.exchange_count) =
      some 2 ∧
    (2 : Nat) ≠ 1 := by
  refine ⟨rfl, by decide, by decide⟩

/-- Witness for C4 (amended) at a concrete transcript. -/
theorem c4_session_end_amended_witness :
    ((handle_session_end cfg0 "s4" [c4file] [("s4", 5)] emptyStore []
      now0).state.find? (fun p => p.1 == "s4") = none) ∧
    (∃ row, lookupSession (handle_session_end cfg0 "s4" [c4file] [("s4", 5)]
        emptyStore [] now0).store "s4" = some row ∧
      row.exchange_count = c4file.lines.countP isExchangeLine) := by
  exact c4_session_end_amended cfg0 "s4" [c4file] [("s4", 5)] emptyStore []
    now0 c4file rfl rfl

theorem step_backfill_fresh (cfg : Config) (now : String) (store : Store)
    (st : BackfillStats) (f : TranscriptFile) (hread : f.readFails = false)
    (hmiss : lookupSession store f.name = none) :
    ∃ d, parse_session cfg now f = some d ∧ d.session_id = f.name ∧
      step_backfill cfg now (fun _ _ => false) (store, st) f =
        (upsert_apply d now store, { st with indexed := st.indexed + 1 }) := by
  obtain ⟨d, hd, hdsid, _⟩ := parse_session_fields cfg now f hread
  refine ⟨d, hd, hdsid, ?_⟩
  simp [step_backfill, hmiss, hd, upsert_session_eval]

/-- C3 (corrected): backfilling a directory holding one valid transcript
(12 user turns) and one readable file whose lines are all non-JSON yields
indexed=2, errors=0 — the malformed lines are skipped inside
`_parse_session` (`json.JSONDecodeError` → `continue`), so the corrupt
file still parses to an (empty) session record and is upserted; `errors`
counts only files whose read raises or whose upsert transaction fails. -/
theorem c3_backfill_two_files (cfg : Config) (now : String)
    (f g : TranscriptFile) (hf : f.readFails = false)
    (hg : g.readFails = false) (hn : f.name ≠ g.name)
    (h12 : userTurnCount f.lines = 12) :
    (backfill_all cfg now (fun _ _ => false) [f, g] emptyStore).2 =
      ⟨2, 2, 0, 0⟩ := by
  unfold backfill_all
  rw [List.foldl_cons, List.foldl_cons, List.foldl_nil]
  obtain ⟨d, hd, hdsid, hstep⟩ :=
    step_backfill_fresh cfg now emptyStore ⟨2, 0, 0, 0⟩ f hf rfl
  show (step_backfill cfg now (fun _ _ => false)
    (step_backfill cfg now (fun _ _ => false) (emptyStore, ⟨2, 0, 0, 0⟩) f)
    g).2 = _
  rw [hstep]
  have hmiss2 : lookupSession (upsert_apply d now emptyStore) g.name = none := by
    rw [lookupSession_upsert_apply_ne d now emptyStore g.name
      (by rw [hdsid]; exact fun hh => hn hh.symm)]
    rfl
  obtain ⟨d2, hd2, hdsid2, hstep2⟩ := step_backfill_fresh cfg now
    (upsert_apply d now emptyStore) ⟨2, 1, 0, 0⟩ g hg hmiss2
  show (step_backfill cfg now (fun _ _ => false)
    (upsert_apply d now emptyStore, ⟨2, 1, 0, 0⟩) g).2 = _
  rw [hstep2]

/-- Counterexample to C3 as stated: the two-file scenario evaluates to
indexed=2, errors=0, refuting indexed=1, errors=1. -/
theorem c3_stats_counterexample :
    (backfill_all cfg0 now0 (fun _ _ => false) [c3valid, c3corrupt]
        emptyStore).2 = ⟨2, 2, 0, 0⟩ ∧
    ¬ ((backfill_all cfg0 now0 (fun _ _ => false) [c3valid, c3corrupt]
        emptyStore).2.indexed = 1 ∧
      (backfill_all cfg0 now0 (fun _ _ => false) [c3valid, c3corrupt]
        emptyStore).2.errors = 1) := by
  have h : (backfill_all cfg0 now0 (fun _ _ => false) [c3valid, c3corrupt]
      emptyStore).2 = ⟨2, 2, 0, 0⟩ := rfl
  refine ⟨h, fun hc => ?_⟩
  rw [h] at hc
  exact absurd hc.1 (by decide)

/-- Witness for C3 (amended) at the concrete two-file directory. -/
theorem c3_backfill_two_files_witness :
    (backfill_all cfg0 now0 (fun _ _ => false) [c3valid, c3corrupt]
        emptyStore).2 = ⟨2, 2, 0, 0⟩ := by
  exact c3_backfill_two_files cfg0 now0 c3valid c3corrupt rfl rfl
    (by decide) (by decide)

/-- C6 (code bug): the hook is supposed to degrade every internal failure
to a silent no-op, but `write_topic_file` has no try/except and `main`
wraps nothing — on a prompt-submitted invocation whose periodic capture
fires, a failing side-channel write propagates out of `main` and aborts
the hook with an uncaught exception. -/
theorem c6_topic_file_failure_propagates :
    hook_main_x env6 cfg0 "s6" "UserPromptSubmit" [c6file]
      ⟨[], emptyStore, []⟩ now0 = .error .topicFileWrite := by
  rfl

theorem countUserLinesLoop_eq (lines : List String) :
    countUserLinesLoop lines = lines.countP hasUserTypeSub := by
  unfold countUserLinesLoop
  suffices h : ∀ n, lines.foldl
      (fun c l => if hasUserTypeSub l then c + 1 else c) n =
      n + lines.countP hasUserTypeSub by
    simpa using h 0
  induction lines with
  | nil => intro n; simp
  | cons hd tl ih =>
    intro n
    rw [List.foldl_cons, List.countP_cons]
    by_cases h : hasUserTypeSub hd <;> simp [h, ih] <;> omega

/-- C10 (amended): the hook's exchange counter is the number of raw lines
containing `"type":"user"` or `"type": "user"` (0 for a missing file); it
agrees with the parsed user-turn count whenever a line contains the marker
exactly when it is a user-turn record — in particular, a user turn whose
body also quotes the marker is still counted once — and on some transcripts
(e.g. a non-JSON line quoting the marker) it exceeds the true user-turn
count. -/
theorem c10_raw_count_amended :
    (∀ f : TranscriptFile, f.readFails = false →
      get_exchange_count (some f) =
        (f.lines.map rawText).countP hasUserTypeSub) ∧
    get_exchange_count none = 0 ∧
    (∀ lines : List Line,
      (∀ l ∈ lines, hasUserTypeSub (rawText l) = isUserLine l) →
      (lines.map rawText).countP hasUserTypeSub = userTurnCount lines) ∧
    (∃ f : TranscriptFile, f.readFails = false ∧
      get_exchange_count (some f) > userTurnCount f.lines) := by
  refine ⟨?_, rfl, ?_, ⟨c10junkFile, rfl, by decide⟩⟩
  · intro f hf
    simp [get_exchange_count, hf, countUserLinesLoop_eq]
  · intro lines h
    rw [List.countP_map]
    unfold userTurnCount
    exact List.countP_congr (fun l hl => by simp [Function.comp, h l hl])

/-- Witness for C10 (amended): on a well-formed two-turn transcript the
raw-line count equals the parsed user-turn count. -/
theorem c10_raw_count_amended_witness :
    get_exchange_count (some c10wFile) = userTurnCount c10wFile.lines := by
  rw [c10_raw_count_amended.1 c10wFile rfl]
  exact c10_raw_count_amended.2.2.1 c10wFile.lines (by decide)

/-- Counterexample to C10's "only when" clause: a transcript whose single
line is a user turn whose message body itself contains `"type":"user"`
still has raw count = parsed user-turn count (each line is counted once),
so equality does not require that no message body contain the marker. -/
theorem c10_body_substring_counterexample :
    get_exchange_count (some c10bodyFile) = userTurnCount c10bodyFile.lines ∧
    strContains (contentText (mkUserEntry "see \"type\":\"user\" here").content)
      "\"type\":\"user\"" = true := by
  exact ⟨by decide, by decide⟩

/-- C9: for every exchange list and non-empty query, the filtering block of
`extract_exchanges` equals the spec's strict three-stage fallback chain
(case-insensitive regex, then case-insensitive substring when the regex
errors or matches nothing, then the word-overlap stage), and when all
three stages match nothing the result is the empty list, never the
unfiltered set. -/
theorem c9_filter_fallback_chain (rx : RegexEngine) (query : String)
    (exchanges : List Exchange) (hq : query ≠ "") :
    queryFilter rx query exchanges = specFallbackFilter rx query exchanges ∧
    ((regexStage rx query exchanges).getD [] = [] →
      substringStage query exchanges = [] →
      wordStage query exchanges = [] →
      queryFilter rx query exchanges = []) := by
  have main : queryFilter rx query exchanges =
      specFallbackFilter rx query exchanges := by
    unfold queryFilter specFallbackFilter regexStage substringStage wordStage
    cases hrx : rx query with
    | some f =>
      cases hl1 : exchanges.filter (fun ex => f ex.user || f ex.assistant) with
      | cons a l => simp [pyFalsyList, hrx, hl1]
      | nil =>
        cases hl2 : exchanges.filter (fun ex =>
            strContains (pyLower ex.user) (pyLower query) ||
              strContains (pyLower ex.assistant) (pyLower query)) with
        | cons a l => simp [pyFalsyList, hrx, hl1, hl2]
        | nil =>
          cases hw : ((pySplitWs query).filter (fun w => w.length > 2)).map
              pyLower with
          | nil => simp [pyFalsyList, hrx, hl1, hl2, hw]
          | cons w ws => simp [pyFalsyList, hrx, hl1, hl2, hw]
    | none =>
      cases hl2 : exchanges.filter (fun ex =>
          strContains (pyLower ex.user) (pyLower query) ||
            strContains (pyLower ex.assistant) (pyLower query)) with
      | cons a l => simp [pyFalsyList, hrx, hl2]
      | nil =>
        cases hw : ((pySplitWs query).filter (fun w => w.length > 2)).map
            pyLower with
        | nil => simp [pyFalsyList, hrx, hl2, hw]
        | cons w ws => simp [pyFalsyList, hrx, hl2, hw]
  refine ⟨main, fun h1 h2 h3 => ?_⟩
  rw [main]
  cases hrx : rx query with
  | none => simp [specFallbackFilter, regexStage, hrx, h2, h3]
  | some f =>
    have hl1 : exchanges.filter (fun ex => f ex.user || f ex.assistant) = [] := by
      simpa [regexStage, hrx] using h1
    simp [specFallbackFilter, regexStage, hrx, hl1, h2, h3]

/-- Witness for C9: a query whose regex errors and whose substring match
fails still surfaces the exchange sharing a word, via the word stage. -/
theorem c9_filter_fallback_chain_witness :
    queryFilter rxNone "login" [c9ex] =
      specFallbackFilter rxNone "login" [c9ex] := by
  exact (c9_filter_fallback_chain rxNone "login" [c9ex] (by decide)).1

theorem stateSet_stateGet (sid : String) (v : Nat) (st : CaptureState) :
    stateGet (stateSet sid v st) sid = v := by
  unfold stateGet
  induction st with
  | nil => simp [stateSet, List.find?]
  | cons hd tl ih =>
    obtain ⟨a, n⟩ := hd
    by_cases h : a = sid
    · simp [stateSet, h, List.find?]
    · have h' : (a == sid) = false := by simpa using h
      simp [stateSet, h', List.find?] at ih ⊢
      exact ih

/-- C7: with capture interval `K` (the source fixes `K = TOPIC_INTERVAL =
10`) and the prompt-submitted handler invoked once per user turn of a
growing transcript, the periodic capture fires exactly at the turn counts
K, 2K, 3K, … — never below K and never less than one full interval after
the last captured exchange count. -/
theorem c7_periodic_capture_multiples (K N : Nat) (hK : 0 < K)
    (sid : String) (tr : Nat → TranscriptFile) (now : String)
    (hcount : ∀ t ∈ List.range' 1 N, get_exchange_count (some (tr t)) = t)
    (hname : ∀ t ∈ List.range' 1 N, (tr t).name = sid)
    (htopic : ∀ t ∈ List.range' 1 N,
      optFalsy (extract_topic (extract_recent_user_messages (tr t) 3)) =
        false) :
    (simulate_prompts K sid tr now N).caps =
      (List.range' 1 N).filter (fun t => t % K = 0) := by
  suffices h : ∀ n, n ≤ N →
      (simulate_prompts K sid tr now n).caps =
        (List.range' 1 n).filter (fun t => t % K = 0) ∧
      stateGet (simulate_prompts K sid tr now n).state sid = K * (n / K) by
    exact (h N le_rfl).1
  intro n
  induction n with
  | zero =>
    intro _
    exact ⟨rfl, by simp [simulate_prompts, stateGet, List.find?]⟩
  | succ n ih =>
    intro hle
    obtain ⟨ihcaps, ihstate⟩ := ih (by omega)
    have hmem : (n + 1) ∈ List.range' 1 N := by
      rw [List.mem_range'_1]
      omega
    have hfind : find_session_file [tr (n + 1)] sid = some (tr (n + 1)) := by
      simp [find_session_file, List.find?, hname (n + 1) hmem]
    have hc := hcount (n + 1) hmem
    have ht := htopic (n + 1) hmem
    set A := K * (n / K) with hA
    have hdm : A + n % K = n := Nat.div_add_mod n K
    have hrlt : n % K < K := Nat.mod_lt n hK
    have hmod1 : (n + 1) % K = (n % K + 1) % K := by
      conv_lhs => rw [show n + 1 = K * (n / K) + (n % K + 1) by omega]
      rw [Nat.mul_add_mod]
    by_cases hdiv : (n + 1) % K = 0
    · -- the turn count is a multiple of K: the capture fires
      have hrK : n % K + 1 = K := by
        by_contra hne
        have hlt : n % K + 1 < K := by omega
        rw [hmod1, Nat.mod_eq_of_lt hlt] at hdiv
        omega
      have hn1 : n + 1 = A + K := by omega
      have hg1 : ¬ (((n + 1 : Nat) : Int) < (K : Int)) := by
        push_cast
        omega
      have hg2 : ¬ (((n + 1 : Nat) : Int) - ((A : Nat) : Int) < (K : Int)) := by
        push_cast
        omega
      have hdq : (n + 1) / K = n / K + 1 := by
        rw [show n + 1 = A + K by omega, hA, ← Nat.mul_succ,
          Nat.mul_div_cancel_left _ hK, Nat.succ_eq_add_one]
      have hr : handle_user_prompt_submit_gen K sid [tr (n + 1)]
          (simulate_prompts K sid tr now n).state
          (simulate_prompts K sid tr now n).store
          (simulate_prompts K sid tr now n).side now =
          ⟨stateSet sid (n + 1) (simulate_prompts K sid tr now n).state,
           write_topic_db sid
             ((extract_topic (extract_recent_user_messages (tr (n + 1)) 3)).getD "")
             "hook_periodic" (some (n + 1)) now
             (simulate_prompts K sid tr now n).store,
           sideSet sid
             ((extract_topic (extract_recent_user_messages (tr (n + 1)) 3)).getD "")
             (simulate_prompts K sid tr now n).side,
           some (n + 1)⟩ := by
        unfold handle_user_prompt_submit_gen
        rw [hfind]
        simp only [hc, ihstate, ← hA]
        rw [if_neg hg1, if_neg hg2]
        simp [ht]
      constructor
      · show ((simulate_prompts K sid tr now n).caps ++ _) = _
        rw [hr, ihcaps, List.range'_concat, List.filter_append]
        simp [hdiv, Nat.add_comm 1 n]
      · show stateGet (handle_user_prompt_submit_gen K sid [tr (n + 1)]
            (simulate_prompts K sid tr now n).state
            (simulate_prompts K sid tr now n).store
            (simulate_prompts K sid tr now n).side now).state sid = _
        rw [hr]
        show stateGet (stateSet sid (n + 1)
          (simulate_prompts K sid tr now n).state) sid = _
        rw [stateSet_stateGet, hdq, Nat.mul_add, Nat.mul_one, ← hA]
        omega
    · -- not a multiple: both guards keep the handler silent
      have hrlt1 : n % K + 1 < K := by
        rcases Nat.lt_or_ge (n % K + 1) K with h | h
        · exact h
        · have heq : n % K + 1 = K := by omega
          rw [hmod1, heq, Nat.mod_self] at hdiv
          omega
      have hg2 : ((n + 1 : Nat) : Int) - ((A : Nat) : Int) < (K : Int) := by
        push_cast
        omega
      have hdq : (n + 1) / K = n / K := by
        rw [show n + 1 = (n % K + 1) + K * (n / K) by omega,
          Nat.add_mul_div_left _ _ hK, Nat.div_eq_of_lt hrlt1,
          Nat.zero_add]
      have hr : handle_user_prompt_submit_gen K sid [tr (n + 1)]
          (simulate_prompts K sid tr now n).state
          (simulate_prompts K sid tr now n).store
          (simulate_prompts K sid tr now n).side now =
          ⟨(simulate_prompts K sid tr now n).state,
           (simulate_prompts K sid tr now n).store,
           (simulate_prompts K sid tr now n).side, none⟩ := by
        unfold handle_user_prompt_submit_gen
        rw [hfind]
        simp only [hc, ihstate, ← hA]
        by_cases hg1 : ((n + 1 : Nat) : Int) < (K : Int)
        · rw [if_pos hg1]
        · rw [if_neg hg1, if_pos hg2]
      have hfilt : (1 + n) % K ≠ 0 := by
        rw [Nat.add_comm 1 n]
        exact hdiv
      constructor
      · show ((simulate_prompts K sid tr now n).caps ++ _) = _
        rw [hr, ihcaps, List.range'_concat, List.filter_append]
        simp [hfilt]
      · show stateGet (handle_user_prompt_submit_gen K sid [tr (n + 1)]
            (simulate_prompts K sid tr now n).state
            (simulate_prompts K sid tr now n).store
            (simulate_prompts K sid tr now n).side now).state sid = _
        rw [hr]
        show stateGet (simulate_prompts K sid tr now n).state sid = _
        rw [ihstate, hdq]

/-- Witness for C7 at interval 2 over 5 turns: captures at 2 and 4. -/
theorem c7_periodic_capture_multiples_witness :
    (simulate_prompts 2 "s7" c7tr now0 5).caps =
      (List.range' 1 5).filter (fun t => t % 2 = 0) := by
  exact c7_periodic_capture_multiples 2 5 (by decide) "s7" c7tr now0
    (by decide) (by decide) (by decide)

end SessionIndex
